import Mathlib

/-!
# Verification of the sketch-animate animation core

A shallow embedding, in Lean 4, of the animation timeline and shape-lifecycle
engine of the `sketch-animate` repository, together with proofs about it.

Modelling conventions:
* JavaScript numbers are modelled as exact rationals (`ℚ`).  JS division by a
  nonzero number agrees with `ℚ` division.  JS division by `0` produces
  `±Infinity`/`NaN`, which `ℚ` cannot represent (`x / 0 = 0` in Lean); every
  theorem below that exercises a division therefore restricts to nonzero
  (in fact positive) durations, the domain on which the embedding is exact.
* `Math.max(...list)` over a spread array returns `-Infinity` on the empty
  array; it is modelled as a fold into `WithBot ℚ`, where `⊥` plays the role
  of `-Infinity` (below every rational, as in JS).
* JS truthiness tests on optional numeric fields (`effect.distance && ...`)
  are falsy at `0`; the embedding tests `dist ≠ 0` accordingly.
-/

/-- 2D Position value object (`src/app/lib/Position.ts`): immutable pair of
coordinates. -/
structure Position where
  x : ℚ
  y : ℚ
deriving DecidableEq, Repr

/-- `Position.at(x, y)` factory (named `atXY` because `at` is a Lean keyword). -/
def Position.atXY (x y : ℚ) : Position := ⟨x, y⟩

/-- `Position.zero()` factory. -/
def Position.zero : Position := ⟨0, 0⟩

/-- `Position.add` — componentwise vector addition. -/
def Position.add (p q : Position) : Position := ⟨p.x + q.x, p.y + q.y⟩

/-- `Position.subtract` — componentwise vector subtraction. -/
def Position.subtract (p q : Position) : Position := ⟨p.x - q.x, p.y - q.y⟩

/-- `Position.multiply` — scalar multiple. -/
def Position.multiply (p : Position) (scalar : ℚ) : Position :=
  ⟨p.x * scalar, p.y * scalar⟩

/-- `Position.divide` (`Position.ts` lines 137–142): throws
`"Cannot divide position by zero"` when the scalar is `0`, otherwise returns
the componentwise quotient.  The throw is modelled as `Except.error`. -/
def Position.divide (p : Position) (scalar : ℚ) : Except String Position :=
  if scalar = 0 then .error "Cannot divide position by zero"
  else .ok ⟨p.x / scalar, p.y / scalar⟩

/-- Duration value object (`src/unnamed/part_009`): scalar time quantity,
canonical unit milliseconds.  The constructor is private in the source; every
construction goes through the factories below. -/
structure Duration where
  ms : ℚ
deriving DecidableEq, Repr

/-- `Duration.milliseconds(value)` — stores the value unchanged. -/
def Duration.milliseconds (value : ℚ) : Duration := ⟨value⟩

/-- `Duration.ms(value)` — alias for `milliseconds` (named `msAlias` here
because `ms` is the field name). -/
def Duration.msAlias (value : ℚ) : Duration := Duration.milliseconds value

/-- `Duration.seconds(value)` — `value * 1000` milliseconds. -/
def Duration.seconds (value : ℚ) : Duration := ⟨value * 1000⟩

/-- `Duration.s(value)` — alias for `seconds`. -/
def Duration.s (value : ℚ) : Duration := Duration.seconds value

/-- `Duration.minutes(value)` — `value * 60 * 1000` milliseconds. -/
def Duration.minutes (value : ℚ) : Duration := ⟨value * 60 * 1000⟩

/-- `Duration.m(value)` — alias for `minutes`. -/
def Duration.m (value : ℚ) : Duration := Duration.minutes value

/-- `Duration.hours(value)` — `value * 60 * 60 * 1000` milliseconds. -/
def Duration.hours (value : ℚ) : Duration := ⟨value * 60 * 60 * 1000⟩

/-- `Duration.h(value)` — alias for `hours`. -/
def Duration.h (value : ℚ) : Duration := Duration.hours value

/-- `Duration.zero()` factory. -/
def Duration.zero : Duration := ⟨0⟩

/-- `Duration.add`. -/
def Duration.add (a b : Duration) : Duration := ⟨a.ms + b.ms⟩

/-- `Duration.subtract` (`part_009` lines 150–152):
`Math.max(0, this.ms - other.ms)` — clamped at zero. -/
def Duration.subtract (a b : Duration) : Duration := ⟨max 0 (a.ms - b.ms)⟩

/-- `Duration.multiply`. -/
def Duration.multiply (a : Duration) (factor : ℚ) : Duration := ⟨a.ms * factor⟩

/-- `Duration.divide` (`part_009` lines 164–169): throws
`"Cannot divide duration by zero"` when the factor is `0`, otherwise returns
the scalar quotient. -/
def Duration.divide (a : Duration) (factor : ℚ) : Except String Duration :=
  if factor = 0 then .error "Cannot divide duration by zero"
  else .ok ⟨a.ms / factor⟩

/-- Slide directions (`src/app/lib/Animate.ts`). -/
inductive Direction where
  | left
  | right
  | top
  | bottom
deriving DecidableEq, Repr

/-- The two effect kinds of `AnimationEffect.type`. -/
inductive EffectType where
  | fade
  | slide
deriving DecidableEq, Repr

/-- `AnimationEffect` (`Animate.ts`): tagged record with optional
direction+distance (old slide pattern) or Position offset (new pattern), and a
per-effect duration in milliseconds. -/
structure AnimationEffect where
  type : EffectType
  direction : Option Direction := none
  distance : Option ℚ := none
  offset : Option Position := none
  duration : ℚ
deriving DecidableEq, Repr

/-- `AnimateOptions` (`Animate.ts`): ordered effect list. -/
structure AnimateOptions where
  effects : List AnimationEffect
deriving DecidableEq, Repr

/-- The `Animate` builder (`Animate.ts`): accumulates an effect list. -/
structure Animate where
  effects : List AnimationEffect
deriving DecidableEq, Repr

/-- `new Animate()` — empty effect list. -/
def Animate.new : Animate := ⟨[]⟩

/-- `Animate.fadeIn(duration)` builder method: pushes a fade effect. -/
def Animate.fadeIn (a : Animate) (duration : Duration) : Animate :=
  ⟨a.effects ++ [{ type := .fade, duration := duration.ms }]⟩

/-- `Animate.fadeOut(duration)` builder method: pushes a fade effect
(identical payload to `fadeIn`). -/
def Animate.fadeOut (a : Animate) (duration : Duration) : Animate :=
  ⟨a.effects ++ [{ type := .fade, duration := duration.ms }]⟩

/-- `Animate.slideFrom(direction, distance, duration)` builder method
(direction+distance pattern). -/
def Animate.slideFromDir (a : Animate) (direction : Direction) (distance : ℚ)
    (duration : Duration) : Animate :=
  ⟨a.effects ++ [{ type := .slide, direction := some direction,
                   distance := some distance, duration := duration.ms }]⟩

/-- `Animate.slideFrom(offset, duration)` builder method (Position pattern). -/
def Animate.slideFromOffset (a : Animate) (offset : Position)
    (duration : Duration) : Animate :=
  ⟨a.effects ++ [{ type := .slide, offset := some offset,
                   duration := duration.ms }]⟩

/-- `Animate.toOptions()` — copies the accumulated effects. -/
def Animate.toOptions (a : Animate) : AnimateOptions := ⟨a.effects⟩

/-- `Math.max(...xs)` over a (possibly empty) spread list: `-Infinity`
(modelled as `⊥ : WithBot ℚ`) on the empty list. -/
def jsMaxList (l : List ℚ) : WithBot ℚ :=
  l.foldr (fun a acc => max (a : WithBot ℚ) acc) ⊥

/-- Result record of `calculateEntranceAnimation`
(`src/app/hooks/animation/converters.ts`). -/
structure EntranceResult where
  opacity : ℚ
  offsetX : ℚ
  offsetY : ℚ
deriving DecidableEq, Repr

/-- `AnimationTransform` (`converters.ts` lines 32–37). -/
structure AnimationTransform where
  opacity : ℚ
  offsetX : ℚ
  offsetY : ℚ
  shouldSkip : Bool
deriving DecidableEq, Repr

/-- One iteration of the `forEach` body of `calculateEntranceAnimation`
(`converters.ts` lines 53–84): `progress = Math.min(elapsed/duration, 1)`
(note: no lower clamp in the source); fade multiplies the accumulated opacity
by `progress`; slide adds `(1 - progress)` of the full offset, via either the
Position pattern or the direction+distance pattern (the latter skipped when
`distance` is `0`, which is falsy in JS). -/
def applyEntranceEffect (elapsed : ℚ) (acc : EntranceResult)
    (e : AnimationEffect) : EntranceResult :=
  let progress := min (elapsed / e.duration) 1
  match e.type with
  | .fade => { acc with opacity := acc.opacity * progress }
  | .slide =>
    let slideProgress := 1 - progress
    match e.offset with
    | some off =>
      { acc with offsetX := acc.offsetX + off.x * slideProgress,
                 offsetY := acc.offsetY + off.y * slideProgress }
    | none =>
      match e.direction, e.distance with
      | some dir, some dist =>
        if dist = 0 then acc
        else
          match dir with
          | .left => { acc with offsetX := acc.offsetX - dist * slideProgress }
          | .right => { acc with offsetX := acc.offsetX + dist * slideProgress }
          | .top => { acc with offsetY := acc.offsetY - dist * slideProgress }
          | .bottom => { acc with offsetY := acc.offsetY + dist * slideProgress }
      | _, _ => acc

/-- `calculateEntranceAnimation(elapsed, animateIn)`
(`converters.ts` lines 42–87): starts from `{opacity: 1, offset: (0,0)}` and
folds the effect list with `applyEntranceEffect`. -/
def calculateEntranceAnimation (elapsed : ℚ)
    (animateIn : Option AnimateOptions) : EntranceResult :=
  match animateIn with
  | none => ⟨1, 0, 0⟩
  | some opts => opts.effects.foldl (applyEntranceEffect elapsed) ⟨1, 0, 0⟩

/-- One iteration of the `forEach` body of `calculateExitAnimation`
(`converters.ts` lines 109–139): fade multiplies opacity by `(1 - progress)`;
slide adds `progress` of the full offset. -/
def applyExitEffect (elapsed : ℚ) (acc : AnimationTransform)
    (e : AnimationEffect) : AnimationTransform :=
  let progress := min (elapsed / e.duration) 1
  match e.type with
  | .fade => { acc with opacity := acc.opacity * (1 - progress) }
  | .slide =>
    match e.offset with
    | some off =>
      { acc with offsetX := acc.offsetX + off.x * progress,
                 offsetY := acc.offsetY + off.y * progress }
    | none =>
      match e.direction, e.distance with
      | some dir, some dist =>
        if dist = 0 then acc
        else
          match dir with
          | .left => { acc with offsetX := acc.offsetX - dist * progress }
          | .right => { acc with offsetX := acc.offsetX + dist * progress }
          | .top => { acc with offsetY := acc.offsetY - dist * progress }
          | .bottom => { acc with offsetY := acc.offsetY + dist * progress }
      | _, _ => acc

/-- `calculateExitAnimation(elapsed, animateOut)` (`converters.ts` lines
92–142): with no spec, the steady visible transform; otherwise, when
`elapsed >= Math.max(...durations)` (`-Infinity` on an empty effect list),
the terminal do-not-draw transform `{opacity: 0, offset: (0,0), shouldSkip:
true}`; otherwise the fold of the effect list. -/
def calculateExitAnimation (elapsed : ℚ)
    (animateOut : Option AnimateOptions) : AnimationTransform :=
  match animateOut with
  | none => ⟨1, 0, 0, false⟩
  | some opts =>
    let maxDuration := jsMaxList (opts.effects.map (fun e => e.duration))
    if maxDuration ≤ (elapsed : WithBot ℚ) then ⟨0, 0, 0, true⟩
    else opts.effects.foldl (applyExitEffect elapsed) ⟨1, 0, 0, false⟩

/-- `isEntranceAnimationComplete(elapsed, animateIn)` (`converters.ts` lines
192–201): vacuously true with no spec, else `elapsed >= Math.max(...durations)`. -/
def isEntranceAnimationComplete (elapsed : ℚ)
    (animateIn : Option AnimateOptions) : Bool :=
  match animateIn with
  | none => true
  | some opts =>
    decide (jsMaxList (opts.effects.map (fun e => e.duration)) ≤ (elapsed : WithBot ℚ))

/-- Shape lifecycle states (`src/unnamed` types / `useCanvasRecorder.ts`). -/
inductive ShapeState where
  | entering
  | visible
  | exiting
deriving DecidableEq, Repr

/-- The lifecycle snapshot consumed by `calculateShapeTransform`
(`converters.ts` lines 147–157). -/
structure ShapeAnim where
  state : ShapeState
  addedAt : ℚ
  removedAt : Option ℚ := none
  animateIn : Option AnimateOptions := none
  animateOut : Option AnimateOptions := none
deriving DecidableEq, Repr

/-- Pending-removal bookkeeping entry stored in `removingShapesRef`
(`useCanvasRecorder.ts` line 969). -/
structure RemovingInfo where
  removedAt : ℚ
  animateOut : Option AnimateOptions := none
deriving DecidableEq, Repr

/-- `calculateShapeTransform(shape, currentTime, removingInfo)`
(`converters.ts` lines 147–187): the pending-removal bookkeeping takes
precedence; then the entering path; then the exiting path (which requires a
truthy `removedAt` and `animateOut`); otherwise fully visible. -/
def calculateShapeTransform (shape : ShapeAnim) (currentTime : ℚ)
    (removingInfo : Option RemovingInfo) : AnimationTransform :=
  match removingInfo with
  | some info => calculateExitAnimation (currentTime - info.removedAt) info.animateOut
  | none =>
    if shape.state = .entering ∧ shape.animateIn.isSome then
      let r := calculateEntranceAnimation (currentTime - shape.addedAt) shape.animateIn
      ⟨r.opacity, r.offsetX, r.offsetY, false⟩
    else
      match shape.state, shape.removedAt, shape.animateOut with
      | .exiting, some removedAt, some animOut =>
        -- JS truthiness: `shape.removedAt && shape.animateOut` is falsy when
        -- the timestamp is the number 0.
        if removedAt = 0 then ⟨1, 0, 0, false⟩
        else calculateExitAnimation (currentTime - removedAt) (some animOut)
      | _, _, _ => ⟨1, 0, 0, false⟩

/-- Geometric shape variants (`src/unnamed/part_001` types). -/
inductive ShapeType where
  | rectangle
  | circle
  | ellipse
  | line
  | polygon
  | text
  | sketchyText
deriving DecidableEq, Repr

/-- Shape record (`src/unnamed/part_001` types + lifecycle metadata stamped by
`addShape` in `useCanvasRecorder.ts`).  Rendering-only payload (rough.js
options, shadow, label, text styling) is omitted: no claim concerns it. -/
structure Shape where
  typ : ShapeType := .rectangle
  x : ℚ := 0
  y : ℚ := 0
  width : Option ℚ := none
  height : Option ℚ := none
  radius : Option ℚ := none
  points : Option (List (ℚ × ℚ)) := none
  id : String := ""
  state : ShapeState := .visible
  addedAt : ℚ := 0
  removedAt : Option ℚ := none
  animateIn : Option AnimateOptions := none
  animateOut : Option AnimateOptions := none
deriving DecidableEq, Repr

/-- The lifecycle snapshot `shapeForCalc` passed by `draw` to
`calculateShapeTransform` (`useCanvasRecorder.ts` lines 1150–1156). -/
def Shape.toAnim (s : Shape) : ShapeAnim :=
  ⟨s.state, s.addedAt, s.removedAt, s.animateIn, s.animateOut⟩

/-- Per-shape metadata stored in `shapeMetadataRef`
(`useCanvasRecorder.ts` line 967). -/
structure ShapeMetadata where
  animateOut : Option AnimateOptions := none
  x : ℚ := 0
  y : ℚ := 0
deriving DecidableEq, Repr

/-- The scheduler state owned by `useAnimationTimeline`
(`useCanvasRecorder.ts` lines 960–969): current scene index, the live shape
collection, the monotonically assigned id counter, the per-shape metadata map
and the pending-removal map (both kept in refs outside the shape collection),
and the per-scene bookkeeping refs. -/
structure TimelineState where
  currentSceneIndex : ℕ
  shapes : List Shape
  shapeIdCounter : ℕ
  shapeMetadata : List (String × ShapeMetadata)
  removingShapes : List (String × RemovingInfo)
  sceneStartTime : ℚ
  sceneExecuted : Bool
deriving DecidableEq, Repr

/-- `nextScene` (`useCanvasRecorder.ts` lines 977–990): advances
`currentSceneIndex` to `index+1` when in bounds, else to `0` when looping,
else leaves it unchanged; resets the scene start time to `now`, marks the
scene not-yet-executed, resets the shape id counter to `0`, clears the
metadata and pending-removal maps, and empties the shape collection. -/
def nextScene (numScenes : ℕ) (loop : Bool) (now : ℚ)
    (st : TimelineState) : TimelineState :=
  let nextIndex := st.currentSceneIndex + 1
  { currentSceneIndex :=
      if nextIndex < numScenes then nextIndex
      else if loop then 0 else st.currentSceneIndex,
    shapes := [],
    shapeIdCounter := 0,
    shapeMetadata := [],
    removingShapes := [],
    sceneStartTime := now,
    sceneExecuted := false }

/-- `addShape` of the scene API (`useCanvasRecorder.ts` lines 1073–1095):
keeps a provided id (bumping the counter past its numeric suffix, parsed from
`"shape-N"`; non-numeric suffixes leave the counter alone), or assigns
`"shape-" ++ (counter+1)`; stamps `state` from the presence of an entrance
spec and `addedAt = now`; appends the shape to the end of the collection. -/
def addShape (st : TimelineState) (shape : Shape) (now : ℚ) : TimelineState :=
  let idAndCounter : String × ℕ :=
    if shape.id = "" then
      (String.append "shape-" (toString (st.shapeIdCounter + 1)),
       st.shapeIdCounter + 1)
    else
      match (shape.id.replace "shape-" "").toNat? with
      | some n =>
        (shape.id, if st.shapeIdCounter < n then n else st.shapeIdCounter)
      | none => (shape.id, st.shapeIdCounter)
  let shapeWithMeta : Shape :=
    { shape with
      id := idAndCounter.1,
      state := if shape.animateIn.isSome then .entering else .visible,
      addedAt := now }
  { st with
    shapes := st.shapes ++ [shapeWithMeta],
    shapeIdCounter := idAndCounter.2 }

/-- The registry-side effect of a completed removal
(`useCanvasRecorder.ts` line 1044): `prev.filter((s) => s.id !== shapeId)`. -/
def removeShapeById (shapes : List Shape) (shapeId : String) : List Shape :=
  shapes.filter (fun s => s.id ≠ shapeId)

/-- Lookup in the pending-removal map (`removingShapesRef.current.get`). -/
def lookupRemoving (removing : List (String × RemovingInfo)) (shapeId : String) :
    Option RemovingInfo :=
  (removing.find? (fun p => p.1 = shapeId)).map (fun p => p.2)

/-- The paint order of one render pass (`draw`, `useCanvasRecorder.ts` lines
1136–1200): shapes are visited in collection order and drawn unless their
transform says `shouldSkip`; this lists the ids actually painted, in order. -/
def drawnShapeIds (shapes : List Shape)
    (removing : List (String × RemovingInfo)) (currentTime : ℚ) : List String :=
  (shapes.filter (fun s =>
    !(calculateShapeTransform s.toAnim currentTime
        (lookupRemoving removing s.id)).shouldSkip)).map (fun s => s.id)

/-- The state update performed by `draw` when an entrance animation has
completed (`useCanvasRecorder.ts` lines 1166–1174): the shape transitions to
`visible`. -/
def markVisibleIfComplete (currentTime : ℚ) (s : Shape) : Shape :=
  if s.state = .entering ∧ s.animateIn.isSome
     ∧ isEntranceAnimationComplete (currentTime - s.addedAt) s.animateIn then
    { s with state := .visible }
  else s

/-- The duration `remove()` waits before purging the shape
(`useCanvasRecorder.ts` lines 1033–1041): `Math.max(...durations)` of the
effective exit spec when one exists (else `0`); the wait is skipped unless
that maximum is strictly positive. -/
def exitMaxDuration (exitAnim : Option AnimateOptions) : WithBot ℚ :=
  match exitAnim with
  | none => 0
  | some opts => jsMaxList (opts.effects.map (fun e => e.duration))

/-- The wait performed before the purge: skipped (`0`) unless
`exitMaxDuration` is strictly positive. -/
def removeWaitTime (exitAnim : Option AnimateOptions) : ℚ :=
  if (0 : WithBot ℚ) < exitMaxDuration exitAnim then
    (exitMaxDuration exitAnim).unbot' 0
  else 0

/-- The earliest wall-clock time at which the promise returned by `remove()`
can resolve (`useCanvasRecorder.ts` lines 1007–1050), under the idealisation
that a `setTimeout(d)` timer fires exactly at delay `d` (real timers fire no
earlier, so this is a lower bound on the true resolution time): the exit wait
(when positive), the purge, then the fixed extra 50 ms delay the source adds
before resolving.  None of these timers is cancelled by `nextScene` (which
clears only `shapeMetadataRef`, `removingShapesRef` and the shape collection),
so the resolution time does not depend on the scheduler state. -/
def removeResolveTime (removedAt : ℚ) (exitAnim : Option AnimateOptions) : ℚ :=
  removedAt + removeWaitTime exitAnim + 50

/-- Render tick schedule: the host render loop (`useAnimatedCanvas.ts`) draws
at a fixed nominal cadence (default 12 frames per second, i.e. every
`1000 / 12` ms); tick `k` of a schedule anchored at `t0` with period `p`. -/
def renderTickTime (t0 p : ℚ) (k : ℕ) : ℚ := t0 + k * p

/-- Spec-claimed progress formula (stated for comparison with the code):
`clamp(elapsed/effectDuration, 0, 1)`.  The code computes only
`Math.min(elapsed/duration, 1)` — the two agree exactly when `elapsed ≥ 0`
and the duration is positive. -/
def clampedProgressSpec (elapsed d : ℚ) : ℚ := max 0 (min (elapsed / d) 1)

/-- The multiplicative opacity contribution of one effect on the entrance
path: a fade effect contributes its progress, any other effect contributes
the neutral factor `1`. -/
def fadeFactorIn (elapsed : ℚ) (e : AnimationEffect) : ℚ :=
  if e.type = .fade then min (elapsed / e.duration) 1 else 1

/-- The multiplicative opacity contribution of one effect on the exit path:
a fade effect contributes `1 - progress`. -/
def fadeFactorOut (elapsed : ℚ) (e : AnimationEffect) : ℚ :=
  if e.type = .fade then 1 - min (elapsed / e.duration) 1 else 1

/-- The full x-displacement of a slide effect (Position pattern: the offset
vector's x; direction pattern: `±distance` on the x-axis, `0` when the
distance is `0` — falsy in JS — or missing); `0` for fades. -/
def slideCoeffX (e : AnimationEffect) : ℚ :=
  match e.type with
  | .fade => 0
  | .slide =>
    match e.offset with
    | some off => off.x
    | none =>
      match e.direction, e.distance with
      | some dir, some dist =>
        if dist = 0 then 0
        else
          match dir with
          | .left => -dist
          | .right => dist
          | .top => 0
          | .bottom => 0
      | _, _ => 0

/-- The full y-displacement of a slide effect; see `slideCoeffX`. -/
def slideCoeffY (e : AnimationEffect) : ℚ :=
  match e.type with
  | .fade => 0
  | .slide =>
    match e.offset with
    | some off => off.y
    | none =>
      match e.direction, e.distance with
      | some dir, some dist =>
        if dist = 0 then 0
        else
          match dir with
          | .left => 0
          | .right => 0
          | .top => -dist
          | .bottom => dist
      | _, _ => 0

lemma applyEntranceEffect_eq (elapsed : ℚ) (acc : EntranceResult)
    (e : AnimationEffect) :
    applyEntranceEffect elapsed acc e =
      ⟨acc.opacity * fadeFactorIn elapsed e,
       acc.offsetX + slideCoeffX e * (1 - min (elapsed / e.duration) 1),
       acc.offsetY + slideCoeffY e * (1 - min (elapsed / e.duration) 1)⟩ := by
  rcases e with ⟨ty, dir, dist, off, dur⟩
  cases ty
  · simp [applyEntranceEffect, fadeFactorIn, slideCoeffX, slideCoeffY]
  · rcases off with _ | off
    · rcases dir with _ | dir
      · simp [applyEntranceEffect, fadeFactorIn, slideCoeffX, slideCoeffY]
      · rcases dist with _ | dist
        · simp [applyEntranceEffect, fadeFactorIn, slideCoeffX, slideCoeffY]
        · by_cases hd : dist = 0
          · simp [applyEntranceEffect, fadeFactorIn, slideCoeffX, slideCoeffY, hd]
          · cases dir <;>
              simp [applyEntranceEffect, fadeFactorIn, slideCoeffX, slideCoeffY,
                hd, sub_eq_add_neg, neg_mul]
    · simp [applyEntranceEffect, fadeFactorIn, slideCoeffX, slideCoeffY]

lemma applyExitEffect_eq (elapsed : ℚ) (acc : AnimationTransform)
    (e : AnimationEffect) :
    applyExitEffect elapsed acc e =
      ⟨acc.opacity * fadeFactorOut elapsed e,
       acc.offsetX + slideCoeffX e * min (elapsed / e.duration) 1,
       acc.offsetY + slideCoeffY e * min (elapsed / e.duration) 1,
       acc.shouldSkip⟩ := by
  rcases e with ⟨ty, dir, dist, off, dur⟩
  cases ty
  · simp [applyExitEffect, fadeFactorOut, slideCoeffX, slideCoeffY]
  · rcases off with _ | off
    · rcases dir with _ | dir
      · simp [applyExitEffect, fadeFactorOut, slideCoeffX, slideCoeffY]
      · rcases dist with _ | dist
        · simp [applyExitEffect, fadeFactorOut, slideCoeffX, slideCoeffY]
        · by_cases hd : dist = 0
          · simp [applyExitEffect, fadeFactorOut, slideCoeffX, slideCoeffY, hd]
          · cases dir <;>
              simp [applyExitEffect, fadeFactorOut, slideCoeffX, slideCoeffY,
                hd, sub_eq_add_neg, neg_mul]
    · simp [applyExitEffect, fadeFactorOut, slideCoeffX, slideCoeffY]

/-- Closed form of the entrance fold: the opacity is the product of the fade
progresses and each offset component is the sum of the slide contributions. -/
lemma entrance_foldl_eq (elapsed : ℚ) (l : List AnimationEffect)
    (acc : EntranceResult) :
    l.foldl (applyEntranceEffect elapsed) acc =
      ⟨acc.opacity * (l.map (fadeFactorIn elapsed)).prod,
       acc.offsetX
         + (l.map (fun e => slideCoeffX e * (1 - min (elapsed / e.duration) 1))).sum,
       acc.offsetY
         + (l.map (fun e => slideCoeffY e * (1 - min (elapsed / e.duration) 1))).sum⟩ := by
  induction l generalizing acc with
  | nil => cases acc; simp
  | cons e l ih =>
    rw [List.foldl_cons, ih, applyEntranceEffect_eq]
    simp [mul_assoc, add_assoc]

/-- Closed form of the exit fold; the `shouldSkip` flag is never touched by
the fold itself. -/
lemma exit_foldl_eq (elapsed : ℚ) (l : List AnimationEffect)
    (acc : AnimationTransform) :
    l.foldl (applyExitEffect elapsed) acc =
      ⟨acc.opacity * (l.map (fadeFactorOut elapsed)).prod,
       acc.offsetX + (l.map (fun e => slideCoeffX e * min (elapsed / e.duration) 1)).sum,
       acc.offsetY + (l.map (fun e => slideCoeffY e * min (elapsed / e.duration) 1)).sum,
       acc.shouldSkip⟩ := by
  induction l generalizing acc with
  | nil => cases acc; simp
  | cons e l ih =>
    rw [List.foldl_cons, ih, applyExitEffect_eq]
    simp [mul_assoc, add_assoc]

/-- Every member of a list bounds `jsMaxList` from below. -/
lemma le_jsMaxList_of_mem {a : ℚ} {l : List ℚ} (h : a ∈ l) :
    (a : WithBot ℚ) ≤ jsMaxList l := by
  induction l with
  | nil => cases h
  | cons b l ih =>
    rcases List.mem_cons.mp h with rfl | h
    · exact le_max_left _ _
    · exact le_trans (ih h) (le_max_right _ _)

/-- A product of factors from `[0, 1]` stays in `[0, 1]`. -/
lemma list_prod_mem_unit {l : List ℚ} (h : ∀ a ∈ l, 0 ≤ a ∧ a ≤ 1) :
    0 ≤ l.prod ∧ l.prod ≤ 1 := by
  induction l with
  | nil => simp
  | cons a l ih =>
    obtain ⟨ha0, ha1⟩ := h a (List.mem_cons_self a l)
    obtain ⟨hl0, hl1⟩ := ih (fun b hb => h b (List.mem_cons_of_mem a hb))
    constructor
    · rw [List.prod_cons]
      exact mul_nonneg ha0 hl0
    · rw [List.prod_cons]
      calc a * l.prod ≤ 1 * 1 := mul_le_mul ha1 hl1 hl0 zero_le_one
        _ = 1 := one_mul 1

/-- The entrance spec of the concrete scenario in §8 of the spec: fade-in of
600 ms plus slide-in from the left of 150 px over 700 ms, built with the
`Animate` builder. -/
def c2AnimateIn : AnimateOptions :=
  ((Animate.new.fadeIn (Duration.milliseconds 600)).slideFromDir .left 150
    (Duration.milliseconds 700)).toOptions

/-- The rectangle of that scenario, as stored by the registry: anchored at
(80, 120), 100×100, entering at `addedAt = 1000`. -/
def c2Rect : Shape :=
  { typ := .rectangle, x := 80, y := 120, width := some 100, height := some 100,
    id := "shape-1", state := .entering, addedAt := 1000,
    animateIn := some c2AnimateIn }

/-- A single fade effect of duration 600 ms, used in counterexamples. -/
def fade600 : AnimateOptions := ⟨[{ type := .fade, duration := 600 }]⟩

/-- An exit spec with one fade effect of duration 0 ms. -/
def c3ZeroFade : AnimateOptions := ⟨[{ type := .fade, duration := 0 }]⟩

/-- An exit spec used as a generic witness input: fade-out of 600 ms plus
slide-out to the right of 150 px over 700 ms. -/
def c3ExitSpec : AnimateOptions :=
  ⟨[{ type := .fade, duration := 600 },
    { type := .slide, direction := some .right, distance := some 150,
      duration := 700 }]⟩

/-- C1, counterexample: the claim says the entrance progress is
`clamp(elapsed/effectDuration, 0, 1)` and so never leaves `[0, 1]` even for
negative `elapsed`; but the code computes only `Math.min(elapsed/duration, 1)`
with no lower clamp, so for a 600 ms fade at `elapsed = -600` the progress is
`-1` and the resulting opacity is `-1`, outside `[0, 1]`, while the claimed
clamped formula yields `0`. -/
theorem entrance_progress_not_clamped_cex :
    (calculateEntranceAnimation (-600) (some fade600)).opacity = -1
    ∧ clampedProgressSpec (-600) 600 = 0
    ∧ ((-1 : ℚ) < 0) := by
  refine ⟨?_, ?_, by norm_num⟩
  · norm_num [calculateEntranceAnimation, applyEntranceEffect, fade600, min_def]
  · norm_num [clampedProgressSpec, min_def, max_def]

/-- C1 (amended): for every entrance spec, the computed opacity is the
product of the per-fade-effect progresses `min(elapsed/duration, 1)`; when
`elapsed ≥ 0` and all effect durations are positive, each such progress
coincides with the claimed `clamp(elapsed/duration, 0, 1)` and lies in
`[0, 1]`, and therefore so does the opacity. -/
theorem entrance_fade_progress_in_unit (elapsed : ℚ) (opts : AnimateOptions)
    (h0 : 0 ≤ elapsed) (hd : ∀ e ∈ opts.effects, 0 < e.duration) :
    (calculateEntranceAnimation elapsed (some opts)).opacity
        = (opts.effects.map (fadeFactorIn elapsed)).prod
    ∧ (∀ e ∈ opts.effects, e.type = .fade →
        fadeFactorIn elapsed e = clampedProgressSpec elapsed e.duration
        ∧ 0 ≤ fadeFactorIn elapsed e ∧ fadeFactorIn elapsed e ≤ 1)
    ∧ 0 ≤ (calculateEntranceAnimation elapsed (some opts)).opacity
    ∧ (calculateEntranceAnimation elapsed (some opts)).opacity ≤ 1 := by
  have hchar : (calculateEntranceAnimation elapsed (some opts)).opacity
      = (opts.effects.map (fadeFactorIn elapsed)).prod := by
    simp [calculateEntranceAnimation, entrance_foldl_eq]
  have hfac : ∀ e ∈ opts.effects,
      0 ≤ fadeFactorIn elapsed e ∧ fadeFactorIn elapsed e ≤ 1 := by
    intro e he
    by_cases hf : e.type = .fade
    · have hdur := hd e he
      have hq : 0 ≤ elapsed / e.duration := div_nonneg h0 (le_of_lt hdur)
      constructor
      · simpa [fadeFactorIn, hf] using le_min hq zero_le_one
      · simp [fadeFactorIn, hf]
    · simp [fadeFactorIn, hf]
  have hprod : 0 ≤ (opts.effects.map (fadeFactorIn elapsed)).prod
      ∧ (opts.effects.map (fadeFactorIn elapsed)).prod ≤ 1 := by
    refine list_prod_mem_unit ?_
    intro a ha
    obtain ⟨e, he, rfl⟩ := List.mem_map.mp ha
    exact hfac e he
  refine ⟨hchar, ?_, hchar ▸ hprod.1, hchar ▸ hprod.2⟩
  intro e he hf
  have hdur := hd e he
  have hq : 0 ≤ elapsed / e.duration := div_nonneg h0 (le_of_lt hdur)
  refine ⟨?_, hfac e he⟩
  have : max 0 (min (elapsed / e.duration) 1) = min (elapsed / e.duration) 1 :=
    max_eq_right (le_min hq zero_le_one)
  simp [fadeFactorIn, hf, clampedProgressSpec, this]

/-- Witness for `entrance_fade_progress_in_unit` at `elapsed = 350` with the
scenario spec (durations 600 and 700). -/
theorem entrance_fade_progress_in_unit_witness :
    (0 ≤ (350 : ℚ)) ∧ (∀ e ∈ c2AnimateIn.effects, 0 < e.duration)
    ∧ (0 ≤ (calculateEntranceAnimation 350 (some c2AnimateIn)).opacity
        ∧ (calculateEntranceAnimation 350 (some c2AnimateIn)).opacity ≤ 1) :=
  ⟨by norm_num, by decide,
    (entrance_fade_progress_in_unit 350 c2AnimateIn (by norm_num) (by decide)).2.2⟩

/-- C2: the concrete scenario.  At `elapsed = 350` the tween yields opacity
`350/600 = 7/12` and offset `(-75, 0)` (both via `calculateEntranceAnimation`
directly and via `calculateShapeTransform` on the stored rectangle at
`currentTime = addedAt + 350`); at `elapsed = 700` the entrance is complete
(`isEntranceAnimationComplete` is true, so `draw` transitions the shape to
`visible`, modelled by `markVisibleIfComplete`) and the tween yields opacity 1
and offset `(0, 0)`; at `elapsed = 350` it is not yet complete. -/
theorem entrance_concrete_scenario :
    calculateEntranceAnimation 350 (some c2AnimateIn) = ⟨7/12, -75, 0⟩
    ∧ calculateShapeTransform c2Rect.toAnim 1350 none = ⟨7/12, -75, 0, false⟩
    ∧ isEntranceAnimationComplete 700 (some c2AnimateIn) = true
    ∧ calculateEntranceAnimation 700 (some c2AnimateIn) = ⟨1, 0, 0⟩
    ∧ markVisibleIfComplete 1700 c2Rect = { c2Rect with state := .visible }
    ∧ isEntranceAnimationComplete 350 (some c2AnimateIn) = false
    ∧ markVisibleIfComplete 1350 c2Rect = c2Rect := by
  have h350 : calculateEntranceAnimation 350 (some c2AnimateIn) = ⟨7/12, -75, 0⟩ := by
    norm_num [calculateEntranceAnimation, applyEntranceEffect, c2AnimateIn,
      Animate.new, Animate.fadeIn, Animate.slideFromDir, Animate.toOptions,
      Duration.milliseconds, min_def]
  have h700 : calculateEntranceAnimation 700 (some c2AnimateIn) = ⟨1, 0, 0⟩ := by
    norm_num [calculateEntranceAnimation, applyEntranceEffect, c2AnimateIn,
      Animate.new, Animate.fadeIn, Animate.slideFromDir, Animate.toOptions,
      Duration.milliseconds, min_def]
  refine ⟨h350, ?_, by decide, h700, ?_, by decide, ?_⟩
  · have : (1350 : ℚ) - 1000 = 350 := by norm_num
    simp [calculateShapeTransform, c2Rect, Shape.toAnim, this, h350]
  · have h3 : isEntranceAnimationComplete ((1700 : ℚ) - c2Rect.addedAt)
        c2Rect.animateIn = true := by
      have he : (1700 : ℚ) - c2Rect.addedAt = 700 := by norm_num [c2Rect]
      rw [he]
      decide
    simp only [markVisibleIfComplete]
    rw [if_pos ⟨rfl, rfl, h3⟩]
  · have h3 : isEntranceAnimationComplete ((1350 : ℚ) - c2Rect.addedAt)
        c2Rect.animateIn = false := by
      have he : (1350 : ℚ) - c2Rect.addedAt = 350 := by norm_num [c2Rect]
      rw [he]
      decide
    have hneg : ¬(c2Rect.state = .entering ∧ c2Rect.animateIn.isSome = true
        ∧ isEntranceAnimationComplete ((1350 : ℚ) - c2Rect.addedAt)
            c2Rect.animateIn = true) := by
      rintro ⟨-, -, hcomp⟩
      rw [h3] at hcomp
      exact Bool.false_ne_true hcomp
    simp only [markVisibleIfComplete]
    rw [if_neg hneg]

/-- C3, counterexample: the claim asserts that for *every* non-empty exit
spec the tween at `elapsed = 0` is the steady visible state
`{opacity 1, offset (0,0), shouldSkip false}`; but for an exit spec whose
single fade effect has duration 0, `elapsed = 0` already satisfies
`elapsed ≥ max(durations)`, so the code returns the terminal
`{opacity 0, shouldSkip true}` result instead. -/
theorem exit_tween_zero_elapsed_cex :
    calculateExitAnimation 0 (some c3ZeroFade) = ⟨0, 0, 0, true⟩
    ∧ ((⟨0, 0, 0, true⟩ : AnimationTransform) ≠ ⟨1, 0, 0, false⟩) := by
  constructor
  · decide
  · decide

/-- C3 (amended): for every non-empty exit spec *whose effect durations are
all positive*: at `elapsed ≥ max(durations)` the tween is the terminal
`shouldSkip` result; at `elapsed = 0` it is the steady visible state; and
below the maximum duration the opacity is the product of the per-fade
`(1 - progress)` factors while each offset component is the sum of the slide
displacements scaled linearly by their own `progress` (growing from zero
toward the full offset). -/
theorem exit_tween_endpoints (elapsed : ℚ) (opts : AnimateOptions)
    (hne : opts.effects ≠ []) (hd : ∀ e ∈ opts.effects, 0 < e.duration) :
    (jsMaxList (opts.effects.map (fun e => e.duration)) ≤ (elapsed : WithBot ℚ) →
        calculateExitAnimation elapsed (some opts) = ⟨0, 0, 0, true⟩)
    ∧ calculateExitAnimation 0 (some opts) = ⟨1, 0, 0, false⟩
    ∧ (¬ jsMaxList (opts.effects.map (fun e => e.duration)) ≤ (elapsed : WithBot ℚ) →
        calculateExitAnimation elapsed (some opts) =
          ⟨(opts.effects.map (fadeFactorOut elapsed)).prod,
           (opts.effects.map (fun e => slideCoeffX e * min (elapsed / e.duration) 1)).sum,
           (opts.effects.map (fun e => slideCoeffY e * min (elapsed / e.duration) 1)).sum,
           false⟩) := by
  refine ⟨?_, ?_, ?_⟩
  · intro h
    simp [calculateExitAnimation, h]
  · obtain ⟨e0, he0⟩ := List.exists_mem_of_ne_nil opts.effects hne
    have hpos : 0 < e0.duration := hd e0 he0
    have hle : (e0.duration : WithBot ℚ)
        ≤ jsMaxList (opts.effects.map (fun e => e.duration)) :=
      le_jsMaxList_of_mem (List.mem_map_of_mem (fun e => e.duration) he0)
    have hnot : ¬ jsMaxList (opts.effects.map (fun e => e.duration))
        ≤ ((0 : ℚ) : WithBot ℚ) := by
      intro hcon
      have h2 := le_trans hle hcon
      rw [WithBot.coe_le_coe] at h2
      linarith
    rw [calculateExitAnimation]
    simp only [hnot, if_false]
    rw [exit_foldl_eq]
    have hprod : (opts.effects.map (fadeFactorOut 0)).prod = 1 := by
      apply List.prod_eq_one
      intro a ha
      obtain ⟨e, _, rfl⟩ := List.mem_map.mp ha
      simp [fadeFactorOut, min_eq_left (le_of_lt one_pos)]
    have hsx : (opts.effects.map
        (fun e => slideCoeffX e * min ((0 : ℚ) / e.duration) 1)).sum = 0 := by
      apply List.sum_eq_zero
      intro a ha
      obtain ⟨e, _, rfl⟩ := List.mem_map.mp ha
      simp [min_eq_left (le_of_lt one_pos)]
    have hsy : (opts.effects.map
        (fun e => slideCoeffY e * min ((0 : ℚ) / e.duration) 1)).sum = 0 := by
      apply List.sum_eq_zero
      intro a ha
      obtain ⟨e, _, rfl⟩ := List.mem_map.mp ha
      simp [min_eq_left (le_of_lt one_pos)]
    simp [hprod, hsx, hsy]
  · intro h
    rw [calculateExitAnimation]
    simp only [h, if_false]
    rw [exit_foldl_eq]
    simp

/-- Witness for `exit_tween_endpoints`: the 600 ms fade / 700 ms slide exit
spec at `elapsed = 800 ≥ 700` is terminal, and at `elapsed = 0` it is the
steady visible state. -/
theorem exit_tween_endpoints_witness :
    (c3ExitSpec.effects ≠ []) ∧ (∀ e ∈ c3ExitSpec.effects, 0 < e.duration)
    ∧ (jsMaxList (c3ExitSpec.effects.map (fun e => e.duration))
        ≤ ((800 : ℚ) : WithBot ℚ))
    ∧ calculateExitAnimation 800 (some c3ExitSpec) = ⟨0, 0, 0, true⟩
    ∧ calculateExitAnimation 0 (some c3ExitSpec) = ⟨1, 0, 0, false⟩ :=
  ⟨by decide, by decide, by decide,
    (exit_tween_endpoints 800 c3ExitSpec (by decide) (by decide)).1 (by decide),
    (exit_tween_endpoints 800 c3ExitSpec (by decide) (by decide)).2.1⟩

/-- C4: effect composition.  For every spec (on the faithful domain of
nonzero durations), the entrance tween's opacity is the product of all fade
progresses and its offset is the componentwise sum of all slide
contributions; the exit tween (below its maximum duration) likewise
multiplies all `(1 - progress)` fade factors and sums all slide
contributions — effect lists are not restricted to one effect per type. -/
theorem tween_effect_composition (elapsed : ℚ) (opts : AnimateOptions)
    (_hd : ∀ e ∈ opts.effects, e.duration ≠ 0) :
    calculateEntranceAnimation elapsed (some opts) =
      ⟨(opts.effects.map (fadeFactorIn elapsed)).prod,
       (opts.effects.map
         (fun e => slideCoeffX e * (1 - min (elapsed / e.duration) 1))).sum,
       (opts.effects.map
         (fun e => slideCoeffY e * (1 - min (elapsed / e.duration) 1))).sum⟩
    ∧ (¬ jsMaxList (opts.effects.map (fun e => e.duration)) ≤ (elapsed : WithBot ℚ) →
        calculateExitAnimation elapsed (some opts) =
          ⟨(opts.effects.map (fadeFactorOut elapsed)).prod,
           (opts.effects.map (fun e => slideCoeffX e * min (elapsed / e.duration) 1)).sum,
           (opts.effects.map (fun e => slideCoeffY e * min (elapsed / e.duration) 1)).sum,
           false⟩) := by
  constructor
  · rw [calculateEntranceAnimation, entrance_foldl_eq]
    simp
  · intro h
    rw [calculateExitAnimation]
    simp only [h, if_false]
    rw [exit_foldl_eq]
    simp

/-- Witness for `tween_effect_composition` at `elapsed = 350` with the
two-effect entrance spec (durations 600 and 700, both nonzero, 350 below the
maximum). -/
theorem tween_effect_composition_witness :
    (∀ e ∈ c2AnimateIn.effects, e.duration ≠ 0)
    ∧ (¬ jsMaxList (c2AnimateIn.effects.map (fun e => e.duration))
        ≤ ((350 : ℚ) : WithBot ℚ))
    ∧ calculateEntranceAnimation 350 (some c2AnimateIn) =
        ⟨(c2AnimateIn.effects.map (fadeFactorIn 350)).prod,
         (c2AnimateIn.effects.map
           (fun e => slideCoeffX e * (1 - min ((350 : ℚ) / e.duration) 1))).sum,
         (c2AnimateIn.effects.map
           (fun e => slideCoeffY e * (1 - min ((350 : ℚ) / e.duration) 1))).sum⟩ :=
  ⟨by decide, by decide,
    (tween_effect_composition 350 c2AnimateIn (by decide)).1⟩

/-- C5: `nextScene` sets the scene index to `index+1` when in bounds, else
wraps to `0` when the loop flag is set, else leaves it unchanged; and in every
case it clears the shape collection, resets the id counter to 0, clears the
per-shape metadata and pending-removal maps, and marks the scene
not-yet-executed. -/
theorem nextScene_advance_and_reset (numScenes : ℕ) (loop : Bool) (now : ℚ)
    (st : TimelineState) :
    (nextScene numScenes loop now st).currentSceneIndex
      = (if st.currentSceneIndex + 1 < numScenes then st.currentSceneIndex + 1
         else if loop then 0 else st.currentSceneIndex)
    ∧ (nextScene numScenes loop now st).shapes = []
    ∧ (nextScene numScenes loop now st).shapeIdCounter = 0
    ∧ (nextScene numScenes loop now st).shapeMetadata = []
    ∧ (nextScene numScenes loop now st).removingShapes = []
    ∧ (nextScene numScenes loop now st).sceneExecuted = false :=
  ⟨rfl, rfl, rfl, rfl, rfl, rfl⟩

/-- C6, counterexample: after the exit wait, `remove()` deliberately awaits a
further fixed 50 ms (`useCanvasRecorder.ts` line 1049) before resolving, so
the (earliest possible) resolution can fall *after* the first render tick that
follows the exit threshold.  With a 600 ms fade-out requested at time 0 and a
12 fps tick schedule anchored at `t0 = 20` (period `1000/12` ms): the
threshold is 600, tick 6 (at `520`) is still before it, tick 7 (at
`1810/3 ≈ 603.3`) is the first tick after it, and the resolution time `650`
lies strictly beyond that tick — refuting "resolves within the first render
tick after that threshold". -/
theorem remove_resolves_after_first_tick_cex :
    removeResolveTime 0 (some fade600) = 650
    ∧ renderTickTime 20 (1000 / 12) 6 ≤ 600
    ∧ (600 : ℚ) < renderTickTime 20 (1000 / 12) 7
    ∧ renderTickTime 20 (1000 / 12) 7 < removeResolveTime 0 (some fade600) := by
  have hmax : exitMaxDuration (some fade600) = ((600 : ℚ) : WithBot ℚ) := by decide
  have hw : removeWaitTime (some fade600) = 600 := by
    rw [removeWaitTime, hmax]
    rw [if_pos (by decide : (0 : WithBot ℚ) < ((600 : ℚ) : WithBot ℚ))]
    exact WithBot.unbot'_coe 0 600
  have h650 : removeResolveTime 0 (some fade600) = 650 := by
    rw [removeResolveTime, hw]
    norm_num
  refine ⟨h650, ?_, ?_, ?_⟩ <;> norm_num [renderTickTime, h650]

/-- C6 (amended): the promise returned by `remove()` never resolves before
`removedAt + max(exit effect durations)` — the resolution time is bounded
below by that threshold for every exit spec (including `⊥`-threshold empty
specs), so it is in particular never left pending; and when the maximum
duration is a positive rational `q`, the (earliest) resolution time is exactly
`removedAt + q + 50` — i.e. a fixed 50 ms after the threshold rather than
within the first render tick after it.  The resolution time is a function of
`removedAt` and the effective exit spec alone: the awaited timers survive
`nextScene`, which clears only the registry-side maps. -/
theorem remove_resolve_time_bounds (removedAt : ℚ)
    (exitAnim : Option AnimateOptions) :
    ((removedAt : WithBot ℚ) + exitMaxDuration exitAnim
        ≤ ((removeResolveTime removedAt exitAnim : ℚ) : WithBot ℚ))
    ∧ (∀ q : ℚ, exitMaxDuration exitAnim = (q : WithBot ℚ) → 0 < q →
        removeResolveTime removedAt exitAnim = removedAt + q + 50) := by
  constructor
  · cases hm : exitMaxDuration exitAnim with
    | bot =>
      rw [WithBot.add_bot]
      exact bot_le
    | coe q =>
      rw [removeResolveTime, removeWaitTime, hm]
      by_cases hq : (0 : ℚ) < q
      · have hq' : (0 : WithBot ℚ) < (q : WithBot ℚ) := by exact_mod_cast hq
        rw [if_pos hq', WithBot.unbot'_coe]
        rw [← WithBot.coe_add, WithBot.coe_le_coe]
        linarith
      · have hq' : ¬ (0 : WithBot ℚ) < (q : WithBot ℚ) := by exact_mod_cast hq
        rw [if_neg hq']
        rw [← WithBot.coe_add, WithBot.coe_le_coe]
        push_neg at hq
        linarith
  · intro q hq hpos
    have hq' : (0 : WithBot ℚ) < (q : WithBot ℚ) := by exact_mod_cast hpos
    rw [removeResolveTime, removeWaitTime, hq, if_pos hq', WithBot.unbot'_coe]

/-- Witness for `remove_resolve_time_bounds`: a 600 ms fade-out requested at
time 0 resolves (at the earliest) at `0 + 600 + 50`. -/
theorem remove_resolve_time_bounds_witness :
    exitMaxDuration (some fade600) = ((600 : ℚ) : WithBot ℚ)
    ∧ ((0 : ℚ) < 600)
    ∧ removeResolveTime 0 (some fade600) = 0 + 600 + 50 :=
  ⟨by decide, by norm_num,
    (remove_resolve_time_bounds 0 (some fade600)).2 600 (by decide) (by norm_num)⟩

/-- Shape A of the C7 scenario: a plain rectangle, no animations, no id yet. -/
def c7A : Shape := { typ := .rectangle, x := 10, y := 10,
                     width := some 40, height := some 40 }

/-- Shape B of the C7 scenario: a plain circle, no animations, no id yet. -/
def c7B : Shape := { typ := .circle, x := 20, y := 20, radius := some 5 }

/-- Fresh scheduler state at the start of a scene. -/
def c7State0 : TimelineState := ⟨0, [], 0, [], [], 0, true⟩

/-- State after adding A (it receives id `shape-1`). -/
def c7State1 : TimelineState := addShape c7State0 c7A 100

/-- State after adding B (it receives id `shape-2`). -/
def c7State2 : TimelineState := addShape c7State1 c7B 200

/-- State after A's removal completes (`shape-1` filtered out). -/
def c7State3 : TimelineState :=
  { c7State2 with shapes := removeShapeById c7State2.shapes "shape-1" }

/-- State after re-adding A (it receives id `shape-3`). -/
def c7State4 : TimelineState := addShape c7State3 c7A 300

/-- C7: paint order is insertion order.  `addShape` appends the new shape at
the end of the collection (the old collection is an unchanged initial
segment); removal filters the collection, preserving the relative order of
the survivors (a sublist); the render pass paints the non-skipped shapes in
collection order, so the painted ids are always a sublist of the collection's
ids in order; and the concrete scenario — add A, add B, remove A, re-add A —
paints `[shape-2, shape-3]`, i.e. B (the circle) below the re-added A (the
rectangle) on top. -/
theorem paint_order_is_insertion_order :
    (∀ (st : TimelineState) (shape : Shape) (now : ℚ),
      (addShape st shape now).shapes.length = st.shapes.length + 1
      ∧ (addShape st shape now).shapes.take st.shapes.length = st.shapes)
    ∧ (∀ (shapes : List Shape) (shapeId : String),
        List.Sublist (removeShapeById shapes shapeId) shapes)
    ∧ (∀ (shapes : List Shape) (removing : List (String × RemovingInfo)) (t : ℚ),
        List.Sublist (drawnShapeIds shapes removing t)
          (shapes.map (fun s => s.id)))
    ∧ drawnShapeIds c7State4.shapes c7State4.removingShapes 400
        = ["shape-2", "shape-3"]
    ∧ c7State4.shapes.map (fun s => (s.typ, s.x))
        = [(.circle, 20), (.rectangle, 10)] := by
  refine ⟨?_, ?_, ?_, ?_, ?_⟩
  · intro st shape now
    constructor
    · simp [addShape]
    · simp [addShape, List.take_left]
  · intro shapes shapeId
    exact List.filter_sublist shapes
  · intro shapes removing t
    exact List.Sublist.map (fun s => s.id) (List.filter_sublist shapes)
  · decide
  · decide

/-- C8, counterexample: the named factories do not clamp negative inputs —
`Duration.milliseconds(-1)` stores `-1`, a negative duration, refuting
"non-negative for every numeric input". -/
theorem duration_factory_negative_cex :
    (Duration.milliseconds (-1)).ms = -1
    ∧ ¬ (0 ≤ (Duration.milliseconds (-1)).ms) := by
  constructor
  · rfl
  · norm_num [Duration.milliseconds]

/-- C8 (amended): every named factory (and alias) returns a non-negative
duration for every *non-negative* numeric input (the factories scale by
positive unit constants and never clamp), and `subtract` clamps its result at
0 unconditionally, so it preserves non-negativity. -/
theorem duration_factories_nonneg (v : ℚ) (hv : 0 ≤ v) (a b : Duration) :
    0 ≤ (Duration.milliseconds v).ms ∧ 0 ≤ (Duration.msAlias v).ms
    ∧ 0 ≤ (Duration.seconds v).ms ∧ 0 ≤ (Duration.s v).ms
    ∧ 0 ≤ (Duration.minutes v).ms ∧ 0 ≤ (Duration.m v).ms
    ∧ 0 ≤ (Duration.hours v).ms ∧ 0 ≤ (Duration.h v).ms
    ∧ 0 ≤ (Duration.zero).ms
    ∧ 0 ≤ (a.subtract b).ms := by
  have hsec : (0 : ℚ) ≤ v * 1000 := by positivity
  have hmin : (0 : ℚ) ≤ v * 60 * 1000 := by positivity
  have hhr : (0 : ℚ) ≤ v * 60 * 60 * 1000 := by positivity
  exact ⟨hv, hv, hsec, hsec, hmin, hmin, hhr, hhr, le_refl 0,
    le_max_left 0 (a.ms - b.ms)⟩

/-- Witness for `duration_factories_nonneg` at `v = 3` and the durations
5 ms and 7 ms (whose clamped difference is 0, not −2). -/
theorem duration_factories_nonneg_witness :
    (0 ≤ (3 : ℚ))
    ∧ 0 ≤ (Duration.seconds 3).ms
    ∧ 0 ≤ ((Duration.milliseconds 5).subtract (Duration.milliseconds 7)).ms :=
  ⟨by norm_num,
    (duration_factories_nonneg 3 (by norm_num) (Duration.milliseconds 5)
      (Duration.milliseconds 7)).2.2.1,
    (duration_factories_nonneg 3 (by norm_num) (Duration.milliseconds 5)
      (Duration.milliseconds 7)).2.2.2.2.2.2.2.2.2⟩

/-- C9: dividing a `Position` or a `Duration` by the scalar 0 fails fast with
the descriptive error of the source, and for every nonzero scalar the
division succeeds with the componentwise (resp. scalar) exact quotient — so
no `NaN`/`Infinity`-producing division is ever performed silently. -/
theorem divide_by_zero_fails_fast (p : Position) (d : Duration) (scalar : ℚ) :
    Position.divide p 0 = .error "Cannot divide position by zero"
    ∧ Duration.divide d 0 = .error "Cannot divide duration by zero"
    ∧ (scalar ≠ 0 → Position.divide p scalar = .ok ⟨p.x / scalar, p.y / scalar⟩)
    ∧ (scalar ≠ 0 → Duration.divide d scalar = .ok ⟨d.ms / scalar⟩) := by
  refine ⟨?_, ?_, ?_, ?_⟩
  · simp [Position.divide]
  · simp [Duration.divide]
  · intro h
    simp [Position.divide, h]
  · intro h
    simp [Duration.divide, h]

/-- Witness for `divide_by_zero_fails_fast` at `Position (3, 4)`, a 10 ms
duration and the scalar 2. -/
theorem divide_by_zero_fails_fast_witness :
    ((2 : ℚ) ≠ 0)
    ∧ Position.divide (Position.atXY 3 4) 2
        = .ok ⟨(Position.atXY 3 4).x / 2, (Position.atXY 3 4).y / 2⟩
    ∧ Duration.divide (Duration.milliseconds 10) 2
        = .ok ⟨(Duration.milliseconds 10).ms / 2⟩ :=
  ⟨by norm_num,
    (divide_by_zero_fails_fast (Position.atXY 3 4) (Duration.milliseconds 10) 2).2.2.1
      (by norm_num),
    (divide_by_zero_fails_fast (Position.atXY 3 4) (Duration.milliseconds 10) 2).2.2.2
      (by norm_num)⟩

/-- C10: an exit spec that exists but has an empty effect list has
`Math.max() = -Infinity` as its maximum duration, so the exit tween is the
terminal `shouldSkip` result at *every* elapsed time (including 0); through
`calculateShapeTransform` the shape is skipped the instant its
pending-removal entry exists; and `remove()`'s computed maximum duration is
not positive, so the exit-duration wait is skipped entirely
(`removeWaitTime = 0`). -/
theorem empty_exit_spec_skips (elapsed : ℚ) (shape : ShapeAnim)
    (currentTime rt : ℚ) :
    calculateExitAnimation elapsed (some ⟨[]⟩) = ⟨0, 0, 0, true⟩
    ∧ (calculateShapeTransform shape currentTime
        (some ⟨rt, some ⟨[]⟩⟩)).shouldSkip = true
    ∧ removeWaitTime (some ⟨[]⟩) = 0 := by
  have h1 : ∀ t : ℚ, calculateExitAnimation t (some ⟨[]⟩) = ⟨0, 0, 0, true⟩ := by
    intro t
    rw [calculateExitAnimation]
    simp [jsMaxList]
  refine ⟨h1 elapsed, ?_, ?_⟩
  · simp [calculateShapeTransform, h1]
  · rw [removeWaitTime, if_neg]
    simp [exitMaxDuration, jsMaxList]
